import Mathlib

/-!
Verification of the agentic video-pipeline repository.

The repository has two source files:
* the API route (`src/unnamed/part_000`): a zod `payloadSchema` for the
  creative Brief and the `POST` handler that parses the request body,
  runs `runAutomationPipeline` with a freshly allocated `statusUpdates`
  buffer, and shapes the outcome into a JSON envelope;
* the page component (`src/agentic-video/src/app/page.tsx`): the form that
  collects the Brief fields and submits them to the endpoint.

`@/lib/pipeline` (the orchestrator) and `@/lib/types` are not part of the
sources; where a claim depends on them they are modelled from the spec and
marked as such in their doc comments.

JSON values are modelled by an inductive type; JavaScript numbers are
modelled as rationals (`ℚ`), which is faithful for the integrality and
range checks the schema performs.  Absent object keys play the role of
`undefined`.
-/

/-- A JSON value, as received by `request.json()`.  Numbers are rationals. -/
inductive Json where
  | null : Json
  | bool (b : Bool) : Json
  | num (q : ℚ) : Json
  | str (s : String) : Json
  | arr (elems : List Json) : Json
  | obj (fields : List (String × Json)) : Json

/-- Field lookup on a JSON object: the value of the first binding of `key`,
`none` when the key is absent (JavaScript `undefined`). -/
def Json.lookup (j : Json) (key : String) : Option Json :=
  match j with
  | .obj fields => List.lookup key fields
  | _ => none

/-- The validated creative brief, i.e. the output type of
`payloadSchema.parse`: exactly the seven declared fields.
`durationSeconds` is stored as an `Int` since the schema checked `.int()`. -/
structure Brief where
  topic : String
  targetAudience : String
  contentGoals : String
  tone : Option String
  keywords : Option (List String)
  callToAction : Option String
  durationSeconds : Option Int
deriving DecidableEq, Repr

/-- Validator for `z.string().min(3)`: a string of length at least 3. -/
def zString3 : Json → Option String
  | .str s => if 3 ≤ s.length then some s else none
  | _ => none

/-- Validator for `z.string()`: any string. -/
def zString : Json → Option String
  | .str s => some s
  | _ => none

/-- Validator for `z.string().min(1)`: a string of length at least 1. -/
def zString1 : Json → Option String
  | .str s => if 1 ≤ s.length then some s else none
  | _ => none

/-- Element-wise validation of a JSON array against `z.string().min(1)`. -/
def zStringList : List Json → Option (List String)
  | [] => some []
  | j :: rest =>
      match zString1 j, zStringList rest with
      | some s, some l => some (s :: l)
      | _, _ => none

/-- Validator for `z.array(z.string().min(1))`: an array of non-empty strings. -/
def zKeywords : Json → Option (List String)
  | .arr elems => zStringList elems
  | _ => none

/-- Validator for `z.number().int().min(30).max(300)`: an integral number between 30 and
300 inclusive, returned as its integer value. -/
def zDuration : Json → Option Int
  | .num q => if q.den = 1 ∧ 30 ≤ q ∧ q ≤ 300 then some q.num else none
  | _ => none

/-- A required field: the key must be present and its value must validate. -/
def reqField (f : Json → Option α) : Option Json → Option α
  | none => none
  | some j => f j

/-- Combinator for `.optional()`: an absent key validates to `none`; a present value must
satisfy the inner validator. -/
def optField (f : Json → Option α) : Option Json → Option (Option α)
  | none => some none
  | some j => (f j).map some

/-- The `payloadSchema.parse` call of the route: validates the raw body into a
`Brief`, `none` when validation fails (zod throws a `ZodError`).  Unknown
keys are ignored (zod objects strip unrecognised keys by default). -/
def parsePayload (body : Json) : Option Brief :=
  match body with
  | .obj _ => do
      let topic ← reqField zString3 (body.lookup "topic")
      let targetAudience ← reqField zString3 (body.lookup "targetAudience")
      let contentGoals ← reqField zString3 (body.lookup "contentGoals")
      let tone ← optField zString (body.lookup "tone")
      let keywords ← optField zKeywords (body.lookup "keywords")
      let callToAction ← optField zString (body.lookup "callToAction")
      let durationSeconds ← optField zDuration (body.lookup "durationSeconds")
      pure { topic, targetAudience, contentGoals, tone, keywords,
             callToAction, durationSeconds }
  | _ => none

/-- The `PipelineStatusMessage` type of `@/lib/types` as the page renders it:
a stage identifier and a free-text detail. -/
structure StatusEvent where
  stage : String
  detail : String
deriving DecidableEq, Repr

/-- A section of the generated script. -/
structure ScriptSection where
  heading : String
  narrative : String
  durationSeconds : Int
deriving DecidableEq, Repr

/-- The generated video script. -/
structure Script where
  hook : String
  sections : List ScriptSection
  outro : String
deriving DecidableEq, Repr

/-- One per-scene visual-generation prompt. -/
structure VisualPrompt where
  scene : String
  prompt : String
  durationSeconds : Int
deriving DecidableEq, Repr

/-- Output of the Renderer stage. -/
structure RenderOutput where
  videoDownloadUrl : String
deriving DecidableEq, Repr

/-- Publishing metadata. -/
structure PublishMetadata where
  tags : List String
deriving DecidableEq, Repr

/-- Output of the Publisher stage. -/
structure PublishOutput where
  youtubeVideoUrl : String
  metadata : PublishMetadata
deriving DecidableEq, Repr

/-- The `PipelineResult` aggregate that a successful run resolves with. -/
structure PipelineResult where
  script : Script
  visualPrompts : List VisualPrompt
  videoDownloadUrl : String
  youtubeVideoUrl : String
  metadata : PublishMetadata
deriving DecidableEq, Repr

/-- A JavaScript value thrown by / rejected from `runAutomationPipeline`:
either an `Error` instance (carrying its `message`) or any other value. -/
inductive Thrown where
  | errorObj (message : String)
  | other (value : Json)

/-- One observed run of `runAutomationPipeline` against a brief: the status
events it pushed into the caller-supplied `onStatus` sink, in order, up to
the point where it settled, together with the settled outcome. -/
def PipelineRun : Type := List StatusEvent × Except Thrown PipelineResult

/-- A pipeline implementation, as the route sees it: a function from the
parsed brief to the run it produces.  The route is compiled against an
arbitrary implementation, so claims about the route are proved for every
`pipeline`. -/
def Pipeline : Type := Brief → PipelineRun

/-- The response produced by `NextResponse.json`: HTTP status plus the
fields of the envelope (`result` and `error` are each present on exactly
one of the two paths). -/
structure Response where
  status : Nat
  ok : Bool
  result : Option PipelineResult
  error : Option String
  statusUpdates : List StatusEvent
deriving DecidableEq, Repr

/-- The `ZodError` that `payloadSchema.parse` throws on invalid input.  It
escapes `POST` uncaught: the `try` block of the handler begins only after
the `parse` call. -/
structure ZodError where
deriving DecidableEq, Repr

/-- The `POST` handler of the route.  `Except.error` is a value thrown out
of the handler (no response is produced by the endpoint itself);
`Except.ok` is the `NextResponse` it returns.  A fresh empty
`statusUpdates` buffer is allocated per call and the pipeline's `onStatus`
callback appends to it, so the envelope's `statusUpdates` is exactly the
event list of this call's own run. -/
def POST (pipeline : Pipeline) (body : Json) : Except ZodError Response :=
  match parsePayload body with
  | none => .error ⟨⟩
  | some brief =>
      let run := pipeline brief
      match run.2 with
      | .ok result =>
          .ok { status := 200, ok := true, result := some result,
                error := none, statusUpdates := run.1 }
      | .error e =>
          let message := match e with
            | .errorObj m => m
            | .other _ => "Unknown pipeline failure"
          .ok { status := 500, ok := false, result := none,
                error := some message, statusUpdates := run.1 }

/-! ## Presentation layer (`page.tsx`) -/

/-- The `FormState` of the page component.  `durationSeconds` is a
JavaScript number (the page stores `Number(event.target.value)`). -/
structure FormState where
  topic : String
  targetAudience : String
  contentGoals : String
  tone : String
  keywords : String
  callToAction : String
  durationSeconds : ℚ
deriving DecidableEq, Repr

/-- Browser constraint validation of the rendered form: `topic`,
`targetAudience` and `contentGoals` carry `required` (non-empty);
the duration input carries `min={30}` and `max={300}` and, as a number
input with the default step of 1, only accepts integral values; the
`tone`, `keywords` and `callToAction` inputs carry no constraint. -/
def formValid (f : FormState) : Bool :=
  !f.topic.isEmpty && !f.targetAudience.isEmpty && !f.contentGoals.isEmpty
    && decide (f.durationSeconds.den = 1)
    && decide ((30 : ℚ) ≤ f.durationSeconds)
    && decide (f.durationSeconds ≤ (300 : ℚ))

/-- JavaScript whitespace for `String.prototype.trim`. -/
def jsWhitespace (c : Char) : Bool :=
  c = ' ' || c = '\t' || c = '\n' || c = '\r'

/-- The `trim` step: strip leading and trailing whitespace from a character list. -/
def trimChars (l : List Char) : List Char :=
  ((l.dropWhile jsWhitespace).reverse.dropWhile jsWhitespace).reverse

/-- The `String.prototype.split(",")` operation on a character list: split at every
comma; the empty input yields one empty piece, as in JavaScript. -/
def splitCommaAux : List Char → List Char → List (List Char)
  | [], acc => [acc.reverse]
  | c :: rest, acc =>
      if c = ',' then acc.reverse :: splitCommaAux rest []
      else splitCommaAux rest (c :: acc)

/-- The keyword preparation `form.keywords.split(",").map((k) => k.trim()).filter(Boolean)` from
`handleSubmit`: comma-split, trim each piece, drop the empty ones. -/
def splitKeywords (s : String) : List String :=
  (((splitCommaAux s.data []).map trimChars).filter (· ≠ [])).map String.mk

/-- The JSON body `handleSubmit` posts to `/api/pipeline`: every form
field is always sent; `keywords` is sent as the split/trimmed array. -/
def submitBody (f : FormState) : Json :=
  .obj [("topic", .str f.topic),
        ("targetAudience", .str f.targetAudience),
        ("contentGoals", .str f.contentGoals),
        ("tone", .str f.tone),
        ("callToAction", .str f.callToAction),
        ("durationSeconds", .num f.durationSeconds),
        ("keywords", .arr ((splitKeywords f.keywords).map Json.str))]

/-! ## The orchestrator, modelled from the spec

`@/lib/pipeline` is not among the sources; only its caller (the route) is.
The definitions below model it from the spec. -/

/-- The four pipeline stages. -/
inductive Stage where
  | script
  | prompt
  | render
  | publish
deriving DecidableEq, Repr

/-- Display name of a stage. -/
def stageName : Stage → String
  | .script => "Script"
  | .prompt => "Prompt"
  | .render => "Render"
  | .publish => "Publish"

/-- Modelled from the spec: the status event announcing the start of a
stage, emitted immediately before the stage is invoked. -/
def startEvent (s : Stage) : StatusEvent :=
  { stage := stageName s, detail := stageName s ++ " stage started" }

/-- Modelled from the spec: the status event emitted immediately after a
stage succeeds. -/
def doneEvent (s : Stage) : StatusEvent :=
  { stage := stageName s, detail := stageName s ++ " stage completed" }

/-- Modelled from the spec: `StageFailure`, the terminal error of a run,
carrying the failing stage's identity and the underlying cause. -/
structure StageFailure where
  stage : Stage
  cause : String
deriving DecidableEq, Repr

/-- Modelled from the spec: the `message` of a `StageFailure` (it is an
`Error` instance), rendering both the stage identity and the cause. -/
def StageFailure.message (sf : StageFailure) : String :=
  stageName sf.stage ++ " stage failed: " ++ sf.cause

/-- Modelled from the spec: the four stage adapters the orchestrator
depends on; each either produces its output or fails with a cause. -/
structure Adapters where
  scriptwriter : Brief → Except String Script
  promptDesigner : Script → Except String (List VisualPrompt)
  renderer : List VisualPrompt → Except String RenderOutput
  publisher : RenderOutput → Brief → Except String PublishOutput

/-- One step of the orchestrator's observable behaviour: either a status
event pushed into the sink, or the invocation of a stage adapter. -/
inductive TraceItem where
  | emit (e : StatusEvent)
  | invoke (s : Stage)
deriving DecidableEq, Repr

/-- The status events of a trace, in order. -/
def statusEventsOf (t : List TraceItem) : List StatusEvent :=
  t.filterMap fun item =>
    match item with
    | .emit e => some e
    | .invoke _ => none

/-- Modelled from the spec: `runAutomationPipeline`, the orchestrator
(`@/lib/pipeline` is missing from the sources).  It runs the four stages
strictly in sequence, emits a start event immediately before invoking each
stage and a completion event immediately after it succeeds, stops at the
first failure wrapping it into a `StageFailure`, and on success assembles
the `PipelineResult`.  The returned trace interleaves emitted events with
stage invocations, in chronological order. -/
def runAutomationPipeline (a : Adapters) (brief : Brief) :
    List TraceItem × Except StageFailure PipelineResult :=
  let t1 : List TraceItem := [.emit (startEvent .script), .invoke .script]
  match a.scriptwriter brief with
  | .error c => (t1, .error ⟨.script, c⟩)
  | .ok script =>
    let t2 := t1 ++ [.emit (doneEvent .script),
                     .emit (startEvent .prompt), .invoke .prompt]
    match a.promptDesigner script with
    | .error c => (t2, .error ⟨.prompt, c⟩)
    | .ok prompts =>
      let t3 := t2 ++ [.emit (doneEvent .prompt),
                       .emit (startEvent .render), .invoke .render]
      match a.renderer prompts with
      | .error c => (t3, .error ⟨.render, c⟩)
      | .ok rendered =>
        let t4 := t3 ++ [.emit (doneEvent .render),
                         .emit (startEvent .publish), .invoke .publish]
        match a.publisher rendered brief with
        | .error c => (t4, .error ⟨.publish, c⟩)
        | .ok published =>
          (t4 ++ [.emit (doneEvent .publish)],
           .ok { script := script, visualPrompts := prompts,
                 videoDownloadUrl := rendered.videoDownloadUrl,
                 youtubeVideoUrl := published.youtubeVideoUrl,
                 metadata := published.metadata })

/-- The pipeline the route sees when the orchestrator is the spec-modelled
`runAutomationPipeline` over the given adapters: the sink receives the
emitted events, and a `StageFailure` reaches the route as the thrown
`Error` instance it is, carrying its `message`. -/
def pipelineOf (a : Adapters) : Pipeline := fun brief =>
  let r := runAutomationPipeline a brief
  (statusEventsOf r.1, r.2.mapError fun sf => Thrown.errorObj sf.message)

/-! ## Sample data used by the witnesses -/

/-- The fields of a concrete valid request body. -/
def sampleFields : List (String × Json) :=
  [("topic", .str "AI automation for video creators"),
   ("targetAudience", .str "Busy YouTubers"),
   ("contentGoals", .str "Educate on automation"),
   ("durationSeconds", .num 120)]

/-- A concrete valid request body. -/
def sampleBody : Json := .obj sampleFields

/-- The brief `sampleBody` validates to. -/
def sampleBrief : Brief :=
  { topic := "AI automation for video creators",
    targetAudience := "Busy YouTubers",
    contentGoals := "Educate on automation",
    tone := none, keywords := none, callToAction := none,
    durationSeconds := some 120 }

/-- A concrete script produced by the stub scriptwriter. -/
def sampleScript : Script :=
  { hook := "Your channel on autopilot",
    sections := [{ heading := "Why automate", narrative := "The case for automation", durationSeconds := 60 }],
    outro := "See you next week" }

/-- Concrete visual prompts produced by the stub prompt designer. -/
def samplePrompts : List VisualPrompt :=
  [{ scene := "Why automate", prompt := "A creator relaxing while robots edit", durationSeconds := 60 }]

/-- A concrete render output. -/
def sampleRender : RenderOutput := { videoDownloadUrl := "https://cdn.example/video.mp4" }

/-- A concrete publish output. -/
def samplePublish : PublishOutput :=
  { youtubeVideoUrl := "https://youtube.example/watch?v=abc",
    metadata := { tags := ["automation", "AI tools"] } }

/-- The pipeline result the stub adapters assemble. -/
def sampleResult : PipelineResult :=
  { script := sampleScript, visualPrompts := samplePrompts,
    videoDownloadUrl := sampleRender.videoDownloadUrl,
    youtubeVideoUrl := samplePublish.youtubeVideoUrl,
    metadata := samplePublish.metadata }

/-- Stub adapters on which every stage succeeds. -/
def okAdapters : Adapters :=
  { scriptwriter := fun _ => .ok sampleScript,
    promptDesigner := fun _ => .ok samplePrompts,
    renderer := fun _ => .ok sampleRender,
    publisher := fun _ _ => .ok samplePublish }

/-- Stub adapters on which the Render stage fails with a quota error. -/
def renderFailAdapters : Adapters :=
  { scriptwriter := fun _ => .ok sampleScript,
    promptDesigner := fun _ => .ok samplePrompts,
    renderer := fun _ => .error "render quota exceeded",
    publisher := fun _ _ => .ok samplePublish }

/-! ## C1 — invalid bodies -/

/-- C1 is refuted as stated: the body `{}` fails Brief validation, yet the
`POST` handler does not return any response, let alone a 4xx-class one —
`payloadSchema.parse` throws before the `try` block and the `ZodError`
escapes the handler uncaught (the framework then produces its default
5xx error response). -/
theorem c1_counterexample :
    parsePayload (Json.obj []) = none ∧
    (POST (fun _ => ([], Except.ok sampleResult)) (Json.obj [])).isOk = false :=
  ⟨rfl, rfl⟩

/-- C1 (amended): for every raw request body that fails Brief validation,
the `POST` handler throws the validation error out of the handler
(returning no response of its own, so in particular no 4xx-class
response), and never invokes `runAutomationPipeline`: its behaviour is
identical for every pipeline implementation. -/
theorem post_invalid_body_throws (body : Json) (h : parsePayload body = none)
    (p p' : Pipeline) :
    POST p body = Except.error ⟨⟩ ∧ POST p body = POST p' body := by
  unfold POST
  rw [h]
  exact ⟨rfl, rfl⟩

/-- Witness for C1 (amended) at a concrete invalid body (a `topic` below
the minimum length) and two concrete pipelines. -/
theorem post_invalid_body_throws_witness :
    POST (fun _ => ([], Except.ok sampleResult)) (Json.obj [("topic", Json.str "ab")])
        = Except.error ⟨⟩ ∧
    POST (fun _ => ([], Except.ok sampleResult)) (Json.obj [("topic", Json.str "ab")])
        = POST (fun _ => ([⟨"Script", "started"⟩], Except.error (Thrown.other Json.null)))
            (Json.obj [("topic", Json.str "ab")]) :=
  post_invalid_body_throws (Json.obj [("topic", Json.str "ab")]) rfl
    (fun _ => ([], Except.ok sampleResult))
    (fun _ => ([⟨"Script", "started"⟩], Except.error (Thrown.other Json.null)))

/-! ## C2 — the response envelope on valid bodies -/

/-- C2: for every request body that validates to a brief, the handler
returns the `{ ok := true, result, statusUpdates }` envelope with status
200 when the pipeline resolves, and the `{ ok := false, error,
statusUpdates }` envelope with the non-2xx status 500 when it rejects; in
both cases `statusUpdates` is exactly the event sequence buffered during
that run. -/
theorem post_envelope (p : Pipeline) (body : Json) (brief : Brief)
    (h : parsePayload body = some brief) :
    (∀ events result, p brief = (events, Except.ok result) →
        POST p body = Except.ok
          { status := 200, ok := true, result := some result,
            error := none, statusUpdates := events }) ∧
    (∀ events e, p brief = (events, Except.error e) →
        ∃ resp, POST p body = Except.ok resp ∧ resp.status = 500 ∧
          ¬(200 ≤ resp.status ∧ resp.status < 300) ∧
          resp.ok = false ∧ resp.result = none ∧ resp.error.isSome = true ∧
          resp.statusUpdates = events) := by
  constructor
  · intro events result hp
    simp only [POST, h, hp]
  · intro events e hp
    simp only [POST, h, hp]
    exact ⟨_, rfl, rfl, by simp, rfl, rfl, rfl, rfl⟩

/-- Witness for C2 at `sampleBody` and a pipeline that emits one event and
succeeds. -/
theorem post_envelope_witness :
    POST (fun _ => ([⟨"Script", "Script stage started"⟩], Except.ok sampleResult)) sampleBody
      = Except.ok
          { status := 200, ok := true, result := some sampleResult,
            error := none,
            statusUpdates := [⟨"Script", "Script stage started"⟩] } :=
  (post_envelope _ sampleBody sampleBrief rfl).1 _ _ rfl

/-! ## C10 — non-`Error` rejections -/

/-- C10: when the pipeline rejects with a value that is not an `Error`
instance, the handler still returns the failure envelope with HTTP status
500 and the error field exactly `"Unknown pipeline failure"`. -/
theorem post_non_error_rejection (p : Pipeline) (body : Json) (brief : Brief)
    (h : parsePayload body = some brief) (events : List StatusEvent) (v : Json)
    (hp : p brief = (events, Except.error (Thrown.other v))) :
    POST p body = Except.ok
      { status := 500, ok := false, result := none,
        error := some "Unknown pipeline failure", statusUpdates := events } := by
  simp only [POST, h, hp]

/-- Witness for C10: a pipeline that rejects with the bare string value
`"boom"` (not an `Error`). -/
theorem post_non_error_rejection_witness :
    POST (fun _ => ([⟨"Script", "Script stage started"⟩],
                    Except.error (Thrown.other (Json.str "boom")))) sampleBody
      = Except.ok
          { status := 500, ok := false, result := none,
            error := some "Unknown pipeline failure",
            statusUpdates := [⟨"Script", "Script stage started"⟩] } :=
  post_non_error_rejection _ sampleBody sampleBrief rfl _ _ rfl

/-! ## C5 — durationSeconds boundaries -/

/-- A request body with fixed valid text fields and the given
`durationSeconds` value (the key is absent when `none`). -/
def durBody (dur : Option Json) : Json :=
  .obj ([("topic", Json.str "AI automation for video creators"),
         ("targetAudience", Json.str "Busy YouTubers"),
         ("contentGoals", Json.str "Educate on automation")]
    ++ (match dur with | none => [] | some j => [("durationSeconds", j)]))

/-- C5: validation accepts `durationSeconds` 30 and 300, rejects 29 and
301, rejects every non-integral number, and accepts a body where the field
is absent. -/
theorem duration_boundaries :
    (parsePayload (durBody (some (Json.num 30)))).isSome = true ∧
    (parsePayload (durBody (some (Json.num 300)))).isSome = true ∧
    (parsePayload (durBody (some (Json.num 29)))).isSome = false ∧
    (parsePayload (durBody (some (Json.num 301)))).isSome = false ∧
    (∀ q : ℚ, q.den ≠ 1 → (parsePayload (durBody (some (Json.num q)))).isSome = false) ∧
    (parsePayload (durBody none)).isSome = true := by
  refine ⟨by decide, by decide, by decide, by decide, ?_, by decide⟩
  intro q hq
  have hz : zDuration (Json.num q) = none := by
    simp only [zDuration]
    rw [if_neg]
    rintro ⟨h1, -⟩
    exact hq h1
  have hred : parsePayload (durBody (some (Json.num q)))
      = ((zDuration (Json.num q)).map some).bind
          (fun d => some { topic := "AI automation for video creators",
                           targetAudience := "Busy YouTubers",
                           contentGoals := "Educate on automation",
                           tone := none, keywords := none, callToAction := none,
                           durationSeconds := d }) := rfl
  rw [hred, hz]
  rfl

/-- Witness for the non-integral conjunct of C5, at `q = 61/2`. -/
theorem duration_boundaries_witness :
    (mkRat 61 2).den ≠ 1 ∧
    (parsePayload (durBody (some (Json.num (mkRat 61 2))))).isSome = false :=
  ⟨by decide, duration_boundaries.2.2.2.2.1 (mkRat 61 2) (by decide)⟩

/-! ## C6 — non-emptiness of the text fields is not sufficient -/

/-- C6 is refuted as stated: `"ab"` is a non-empty string, and the other
two text fields are non-empty as well, yet validation rejects the body —
the schema requires `.min(3)` on each text field, not mere
non-emptiness. -/
theorem c6_counterexample :
    ("ab" : String) ≠ "" ∧
    parsePayload (Json.obj [("topic", Json.str "ab"),
                            ("targetAudience", Json.str "abc"),
                            ("contentGoals", Json.str "abc")]) = none :=
  ⟨by decide, rfl⟩

/-- A request body assembled from values for the seven Brief fields, the
optional ones included only when present. -/
def mkBody (t a g : String) (tone : Option String) (kw : Option (List String))
    (cta : Option String) (dur : Option ℚ) : Json :=
  .obj ([("topic", Json.str t), ("targetAudience", Json.str a),
         ("contentGoals", Json.str g)]
    ++ (match tone with | none => [] | some s => [("tone", Json.str s)])
    ++ (match kw with | none => [] | some l => [("keywords", Json.arr (l.map Json.str))])
    ++ (match cta with | none => [] | some s => [("callToAction", Json.str s)])
    ++ (match dur with | none => [] | some q => [("durationSeconds", Json.num q)]))

/-- A list of strings of length at least 1 validates element-wise. -/
theorem zStringList_map_str (l : List String) (h : ∀ k ∈ l, 1 ≤ k.length) :
    zStringList (l.map Json.str) = some l := by
  induction l with
  | nil => rfl
  | cons x xs ih =>
      have hx : 1 ≤ x.length := h x (by simp)
      have hxs := ih (fun k hk => h k (by simp [hk]))
      simp [zStringList, zString1, hx, hxs]

/-- C6 (amended): length at least 3 — not mere non-emptiness — of `topic`,
`targetAudience` and `contentGoals` is sufficient for the body to pass
validation, provided the optional fields, when present, satisfy their own
constraints. -/
theorem min_length_three_sufficient (t a g : String) (tone : Option String)
    (kw : Option (List String)) (cta : Option String) (dur : Option ℚ)
    (ht : 3 ≤ t.length) (ha : 3 ≤ a.length) (hg : 3 ≤ g.length)
    (hkw : ∀ l, kw = some l → ∀ k ∈ l, 1 ≤ k.length)
    (hdur : ∀ q, dur = some q → q.den = 1 ∧ 30 ≤ q ∧ q ≤ 300) :
    (parsePayload (mkBody t a g tone kw cta dur)).isSome = true := by
  have hkw' : ∀ l, kw = some l → zStringList (l.map Json.str) = some l :=
    fun l hl => zStringList_map_str l (hkw l hl)
  have hdur' : ∀ q, dur = some q → zDuration (Json.num q) = some q.num := by
    intro q hq
    simp [zDuration, hdur q hq]
  rcases tone with _ | s <;> rcases kw with _ | l <;>
    rcases cta with _ | c <;> rcases dur with _ | q <;>
    simp_all [mkBody, parsePayload, Json.lookup, List.lookup, reqField,
              optField, zString3, zString, zKeywords, ht, ha, hg]

/-- Witness for C6 (amended): a body with all seven fields present and
valid is accepted. -/
theorem min_length_three_sufficient_witness :
    (parsePayload (mkBody "AI automation" "Busy YouTubers" "Educate viewers"
        (some "Energetic") (some ["automation", "AI tools"])
        (some "Subscribe now") (some 120))).isSome = true :=
  min_length_three_sufficient _ _ _ _ _ _ _ (by decide) (by decide) (by decide)
    (by rintro l ⟨rfl⟩; decide) (by rintro q ⟨rfl⟩; exact ⟨by decide, by decide, by decide⟩)

/-! ## C9 — unknown keys are stripped -/

/-- The seven field keys `payloadSchema` declares. -/
def briefKeys : List String :=
  ["topic", "targetAudience", "contentGoals", "tone", "keywords",
   "callToAction", "durationSeconds"]

/-- C9: validation reads only the seven declared keys, so the `Brief`
handed to the pipeline — and with it the handler's entire behaviour — is
unchanged by any additional fields of the raw body: two bodies agreeing on
the seven declared keys validate identically and produce identical
responses for every pipeline.  (The `Brief` type itself has exactly the
seven declared fields, so nothing else can reach the pipeline.) -/
theorem unknown_keys_stripped (b₁ b₂ : List (String × Json))
    (h : ∀ key ∈ briefKeys, List.lookup key b₁ = List.lookup key b₂) :
    parsePayload (Json.obj b₁) = parsePayload (Json.obj b₂) ∧
    ∀ p : Pipeline, POST p (Json.obj b₁) = POST p (Json.obj b₂) := by
  have h1 := h "topic" (by simp [briefKeys])
  have h2 := h "targetAudience" (by simp [briefKeys])
  have h3 := h "contentGoals" (by simp [briefKeys])
  have h4 := h "tone" (by simp [briefKeys])
  have h5 := h "keywords" (by simp [briefKeys])
  have h6 := h "callToAction" (by simp [briefKeys])
  have h7 := h "durationSeconds" (by simp [briefKeys])
  have hp : parsePayload (Json.obj b₁) = parsePayload (Json.obj b₂) := by
    simp only [parsePayload, Json.lookup, h1, h2, h3, h4, h5, h6, h7]
  exact ⟨hp, fun p => by simp only [POST, hp]⟩

/-- Witness for C9: injecting an extra `"injected"` field into the sample
body changes neither the validation outcome nor the response. -/
theorem unknown_keys_stripped_witness :
    parsePayload (Json.obj (("injected", Json.null) :: sampleFields))
        = parsePayload (Json.obj sampleFields) ∧
    ∀ p : Pipeline,
      POST p (Json.obj (("injected", Json.null) :: sampleFields))
        = POST p (Json.obj sampleFields) :=
  unknown_keys_stripped (("injected", Json.null) :: sampleFields) sampleFields
    (by
      intro key hk
      simp only [briefKeys, List.mem_cons, List.not_mem_nil, or_false] at hk
      rcases hk with rfl | rfl | rfl | rfl | rfl | rfl | rfl <;> rfl)

/-! ## C4 — status events of a successful run -/

/-- C4: on a successful run the orchestrator's observable behaviour is the
exact chronological trace start-Script, invoke-Script, done-Script, …,
done-Publish — each start event is emitted immediately before its stage is
invoked and each completion event immediately after it succeeds — so the
status sink receives exactly 8 events in the fixed order Script-start,
Script-done, Prompt-start, Prompt-done, Render-start, Render-done,
Publish-start, Publish-done. -/
theorem pipeline_success_trace (a : Adapters) (brief : Brief)
    (script : Script) (prompts : List VisualPrompt)
    (rendered : RenderOutput) (published : PublishOutput)
    (h1 : a.scriptwriter brief = .ok script)
    (h2 : a.promptDesigner script = .ok prompts)
    (h3 : a.renderer prompts = .ok rendered)
    (h4 : a.publisher rendered brief = .ok published) :
    (runAutomationPipeline a brief).1 =
      [.emit (startEvent .script), .invoke .script, .emit (doneEvent .script),
       .emit (startEvent .prompt), .invoke .prompt, .emit (doneEvent .prompt),
       .emit (startEvent .render), .invoke .render, .emit (doneEvent .render),
       .emit (startEvent .publish), .invoke .publish, .emit (doneEvent .publish)] ∧
    statusEventsOf (runAutomationPipeline a brief).1 =
      [startEvent .script, doneEvent .script,
       startEvent .prompt, doneEvent .prompt,
       startEvent .render, doneEvent .render,
       startEvent .publish, doneEvent .publish] ∧
    (statusEventsOf (runAutomationPipeline a brief).1).length = 8 := by
  have htr : (runAutomationPipeline a brief).1 =
      [.emit (startEvent .script), .invoke .script, .emit (doneEvent .script),
       .emit (startEvent .prompt), .invoke .prompt, .emit (doneEvent .prompt),
       .emit (startEvent .render), .invoke .render, .emit (doneEvent .render),
       .emit (startEvent .publish), .invoke .publish, .emit (doneEvent .publish)] := by
    simp [runAutomationPipeline, h1, h2, h3, h4]
  refine ⟨htr, ?_, ?_⟩ <;> rw [htr] <;> rfl

/-- Witness for C4: the all-succeeding stub adapters on the sample brief. -/
theorem pipeline_success_trace_witness :
    statusEventsOf (runAutomationPipeline okAdapters sampleBrief).1 =
      [startEvent .script, doneEvent .script,
       startEvent .prompt, doneEvent .prompt,
       startEvent .render, doneEvent .render,
       startEvent .publish, doneEvent .publish] :=
  (pipeline_success_trace okAdapters sampleBrief sampleScript samplePrompts
    sampleRender samplePublish rfl rfl rfl rfl).2.1

/-! ## C3 — stage failures cross the boundary intact -/

/-- Two character lists with length at least 2 that open an equal
concatenation agree on their first two characters. -/
theorem append_take2 {p q x y : List Char} (hp : 2 ≤ p.length)
    (hq : 2 ≤ q.length) (h : p ++ x = q ++ y) : p.take 2 = q.take 2 := by
  have h2 := congrArg (List.take 2) h
  rwa [List.take_append_of_le_length hp, List.take_append_of_le_length hq] at h2

/-- The rendered `StageFailure` message determines the failure: distinct
stage/cause pairs render to distinct messages. -/
theorem stageFailure_message_inj : ∀ sf₁ sf₂ : StageFailure,
    sf₁.message = sf₂.message → sf₁ = sf₂ := by
  rintro ⟨s₁, c₁⟩ ⟨s₂, c₂⟩ h
  have hd := congrArg String.data h
  simp only [StageFailure.message, String.data_append] at hd
  cases s₁ <;> cases s₂ <;> simp only [stageName] at hd <;>
    first
    | exact absurd (append_take2 (by decide) (by decide) hd) (by decide)
    | exact congrArg (StageFailure.mk _) (String.ext (List.append_cancel_left hd))

/-- C3: when a stage fails, the route's response carries the
`StageFailure`'s message in its error field together with every status
event collected before the failure, and that message uniquely determines
both the failing stage's identity and the underlying cause — neither is
lost crossing the orchestrator/transport boundary. -/
theorem stage_failure_preserved (a : Adapters) (body : Json) (brief : Brief)
    (hb : parsePayload body = some brief) (tr : List TraceItem)
    (sf : StageFailure)
    (hrun : runAutomationPipeline a brief = (tr, Except.error sf)) :
    ∃ resp, POST (pipelineOf a) body = Except.ok resp ∧
      resp.error = some sf.message ∧
      resp.statusUpdates = statusEventsOf tr ∧
      ∀ sf' : StageFailure, sf'.message = sf.message → sf' = sf := by
  have hp : pipelineOf a brief
      = (statusEventsOf tr, Except.error (Thrown.errorObj sf.message)) := by
    simp [pipelineOf, hrun, Except.mapError]
  simp only [POST, hb, hp]
  exact ⟨_, rfl, rfl, rfl, fun sf' h' => stageFailure_message_inj sf' sf h'⟩

/-- Witness for C3: adapters whose Render stage fails with a quota error,
run on the sample body. -/
theorem stage_failure_preserved_witness :
    ∃ resp, POST (pipelineOf renderFailAdapters) sampleBody = Except.ok resp ∧
      resp.error = some (StageFailure.mk .render "render quota exceeded").message ∧
      resp.statusUpdates = statusEventsOf
        [.emit (startEvent .script), .invoke .script, .emit (doneEvent .script),
         .emit (startEvent .prompt), .invoke .prompt, .emit (doneEvent .prompt),
         .emit (startEvent .render), .invoke .render] ∧
      ∀ sf' : StageFailure,
        sf'.message = (StageFailure.mk .render "render quota exceeded").message →
          sf' = StageFailure.mk .render "render quota exceeded" :=
  stage_failure_preserved renderFailAdapters sampleBody sampleBrief rfl
    [.emit (startEvent .script), .invoke .script, .emit (doneEvent .script),
     .emit (startEvent .prompt), .invoke .prompt, .emit (doneEvent .prompt),
     .emit (startEvent .render), .invoke .render]
    (StageFailure.mk .render "render quota exceeded") rfl

/-! ## C7 — form constraints vs schema constraints -/

/-- Every keyword produced by the submit-time split is non-empty. -/
theorem splitKeywords_nonempty (s : String) :
    ∀ k ∈ splitKeywords s, 1 ≤ k.length := by
  intro k hk
  simp only [splitKeywords, List.mem_map, List.mem_filter] at hk
  obtain ⟨l, ⟨-, hne⟩, rfl⟩ := hk
  have hl : l ≠ [] := by simpa using hne
  have : 0 < l.length := List.length_pos.mpr hl
  exact this

/-- C7 is refuted as stated: the form state with `topic = "ab"` (all other
fields at constraint-satisfying values) passes the form's constraint
validation — the text inputs only carry `required` — yet its submitted
body fails the endpoint schema, which demands length at least 3; so the
form does not constrain the text fields exactly as the schema does. -/
theorem c7_counterexample :
    formValid { topic := "ab", targetAudience := "abc", contentGoals := "abc",
                tone := "", keywords := "", callToAction := "",
                durationSeconds := 120 } = true ∧
    (parsePayload (submitBody
        { topic := "ab", targetAudience := "abc", contentGoals := "abc",
          tone := "", keywords := "", callToAction := "",
          durationSeconds := 120 })).isSome = false := by
  exact ⟨by decide, by decide⟩

/-- C7 (amended): the form's duration input enforces exactly the schema's
bounds (integral, 30–300 inclusive) and `tone`, `keywords` and
`callToAction` are optional, but the three text inputs only require
non-emptiness, strictly weaker than the schema's minimum length 3: a
form-valid state is accepted by the endpoint schema once its three text
fields also have length at least 3. -/
theorem form_validation_vs_schema (f : FormState) (hv : formValid f = true) :
    (f.durationSeconds.den = 1 ∧ (30 : ℚ) ≤ f.durationSeconds ∧
        f.durationSeconds ≤ 300) ∧
    (3 ≤ f.topic.length → 3 ≤ f.targetAudience.length →
        3 ≤ f.contentGoals.length →
        (parsePayload (submitBody f)).isSome = true) := by
  simp only [formValid, Bool.and_eq_true, decide_eq_true_eq] at hv
  obtain ⟨⟨⟨⟨⟨-, -⟩, -⟩, hden⟩, h30⟩, h300⟩ := hv
  refine ⟨⟨hden, h30, h300⟩, ?_⟩
  intro ht ha hg
  have hkw := zStringList_map_str (splitKeywords f.keywords)
    (splitKeywords_nonempty f.keywords)
  have hdur : zDuration (Json.num f.durationSeconds)
      = some f.durationSeconds.num := by
    simp [zDuration, hden, h30, h300]
  simp [submitBody, parsePayload, Json.lookup, List.lookup, reqField, optField,
        zString3, zString, zKeywords, ht, ha, hg, hkw, hdur]

/-- The `initialForm` of the page. -/
def initialForm : FormState :=
  { topic := "AI automation for video creators",
    targetAudience := "Busy YouTubers and content marketers",
    contentGoals := "Educate viewers on automating their video workflow",
    tone := "Energetic and insightful",
    keywords := "automation, AI tools, YouTube growth",
    callToAction := "Subscribe for weekly automation playbooks",
    durationSeconds := 120 }

/-- Witness for C7 (amended): the page's initial form state is form-valid,
its text fields happen to reach length 3, and its submission passes the
schema. -/
theorem form_validation_vs_schema_witness :
    (parsePayload (submitBody initialForm)).isSome = true :=
  (form_validation_vs_schema initialForm (by decide)).2
    (by decide) (by decide) (by decide)

/-! ## C8 — independence of runs -/

/-- C8: every call of the handler uses its own initially-empty buffer: a
response's `statusUpdates` is exactly the event sequence of that call's
own pipeline run, and for two runs an event that the second run's pipeline
did not itself emit never appears in the second response, whatever the
first run emitted. -/
theorem runs_independent (p₁ p₂ : Pipeline) (b₁ b₂ : Json)
    (brief₁ brief₂ : Brief)
    (h₁ : parsePayload b₁ = some brief₁) (h₂ : parsePayload b₂ = some brief₂)
    (r₁ r₂ : Response)
    (hr₁ : POST p₁ b₁ = Except.ok r₁) (hr₂ : POST p₂ b₂ = Except.ok r₂) :
    r₁.statusUpdates = (p₁ brief₁).1 ∧ r₂.statusUpdates = (p₂ brief₂).1 ∧
    ∀ e : StatusEvent, e ∈ r₁.statusUpdates → e ∉ (p₂ brief₂).1 →
      e ∉ r₂.statusUpdates := by
  have key : ∀ (p : Pipeline) (b : Json) (brief : Brief) (r : Response),
      parsePayload b = some brief → POST p b = Except.ok r →
      r.statusUpdates = (p brief).1 := by
    intro p b brief r h hr
    simp only [POST, h] at hr
    rcases hout : (p brief).2 with e | res <;> rw [hout] at hr <;>
      simp only [Except.ok.injEq] at hr <;> subst hr <;> rfl
  refine ⟨key p₁ b₁ brief₁ r₁ h₁ hr₁, key p₂ b₂ brief₂ r₂ h₂ hr₂, ?_⟩
  intro e _ hne
  rw [key p₂ b₂ brief₂ r₂ h₂ hr₂]
  exact hne

/-- Witness for C8: two concrete runs against the sample body; the first
run's event never shows up in the second run's response. -/
theorem runs_independent_witness :
    (⟨"Script", "run one"⟩ : StatusEvent) ∉
      ({ status := 200, ok := true, result := some sampleResult, error := none,
         statusUpdates := [⟨"Script", "run two"⟩] } : Response).statusUpdates :=
  (runs_independent
      (fun _ => ([⟨"Script", "run one"⟩], Except.ok sampleResult))
      (fun _ => ([⟨"Script", "run two"⟩], Except.ok sampleResult))
      sampleBody sampleBody sampleBrief sampleBrief rfl rfl
      { status := 200, ok := true, result := some sampleResult, error := none,
        statusUpdates := [⟨"Script", "run one"⟩] }
      { status := 200, ok := true, result := some sampleResult, error := none,
        statusUpdates := [⟨"Script", "run two"⟩] }
      rfl rfl).2.2 ⟨"Script", "run one"⟩ (by decide) (by decide)
